import Mathlib

/-!
Shallow embedding of `src/streamlit_app.py` (AI Multi-Image Exporter).

The embedded pieces are the ones the claims are about:
  * `call_gemini_api`   — HTTP call with a 3-attempt retry/backoff loop
                          (modelled as `callGeminiApi`, with the per-attempt
                          network outcome supplied as an oracle function);
  * `parse_and_store_results` — envelope field access, markdown-fence
                          stripping, `json.loads`, session-state extension
                          (modelled as `getResponseText`, `parseText`,
                          `parseAndStore`);
  * `process_images`    — the per-image loop with its error accounting and
                          the fatal `PermissionError` early return
                          (modelled as `stepImage`, `runImages`,
                          `processImages`);
  * the CSV export `df.to_csv(index=False).encode('utf-8')`
                          (modelled as `csvData` and `utf8Encode`).

Modelling conventions: Python dicts/lists of the JSON payloads are `PyJson`;
JSON numbers are modelled as integers (every number the program's prompt
requests and every number in the claims is an integer); Python exceptions
are the `PyErr` inductive; `time.sleep(delay)` is recorded in a list of
delays instead of actually sleeping.
-/

/-- JSON values as produced by `json.loads` / consumed by the app.
Numbers are modelled as integers (see module docstring). -/
inductive PyJson where
  | null : PyJson
  | bool (b : Bool) : PyJson
  | num (n : Int) : PyJson
  | str (s : String) : PyJson
  | arr (xs : List PyJson) : PyJson
  | obj (kvs : List (String × PyJson)) : PyJson
deriving Repr, BEq

/-- Python exceptions raised by the embedded code paths. -/
inductive PyErr where
  | valueError       -- `ValueError("API Key is missing. ...")`
  | permissionError  -- `PermissionError("API call failed with status 403 ...")`
  | httpError (status : Nat) -- `requests.exceptions.HTTPError` for a 4xx/5xx status
  | requestError     -- `requests.exceptions.RequestException` (connectivity)
  | indexError       -- `IndexError` from `[0]` on an empty list
  | attributeError   -- `AttributeError` from `.get`/`.strip` on a wrong type
  | nameError        -- `NameError` (unbound local); unreachable in practice
deriving Repr, DecidableEq

/-- Characters stripped by Python `str.strip()` (the ASCII whitespace set;
the app's strings contain no exotic Unicode whitespace). -/
def pyWhitespace (c : Char) : Bool :=
  c = ' ' || c = '\t' || c = '\n' || c = '\x0d' || c = '\x0b' || c = '\x0c'

/-- Python `str.strip()` on a character list. -/
def stripChars (s : List Char) : List Char :=
  ((s.dropWhile pyWhitespace).reverse.dropWhile pyWhitespace).reverse

/-- Python `str.strip()`. -/
def pyStrip (s : String) : String :=
  ⟨stripChars s.data⟩

/-- Replace every non-overlapping occurrence of `pat` by `repl`, scanning
left to right — the semantics of Python `str.replace` for a non-empty
pattern. `fuel` bounds the recursion; with `fuel = s.length + 1` and a
non-empty pattern the fuel never runs out. -/
def replaceChars (fuel : Nat) (pat repl s : List Char) : List Char :=
  match fuel with
  | 0 => s
  | fuel + 1 =>
    if pat.isPrefixOf s ∧ pat ≠ [] then
      repl ++ replaceChars fuel pat repl (s.drop pat.length)
    else
      match s with
      | [] => []
      | c :: rest => c :: replaceChars fuel pat repl rest

/-- Python `s.replace(pat, repl)` (for the non-empty literal patterns the
app uses). -/
def pyReplace (s pat repl : String) : String :=
  ⟨replaceChars (s.data.length + 1) pat.data repl.data s.data⟩

/-! ### A model of `json.loads`

A recursive-descent parser over the character list, with a fuel argument
for termination. It accepts the JSON fragment the app exchanges: objects,
arrays, double-quoted strings with the common escapes, integer numbers,
`true`/`false`/`null`. As in `json.loads`, trailing non-whitespace input
is an error and the empty string is an error. -/

/-- JSON structural whitespace. -/
def jsonWs (c : Char) : Bool :=
  c = ' ' || c = '\t' || c = '\n' || c = '\x0d'

/-- Parse the body of a JSON string literal (after the opening quote),
returning the string and the input after the closing quote. -/
def parseStringBody (fuel : Nat) (acc : List Char) (s : List Char) :
    Option (String × List Char) :=
  match fuel, s with
  | 0, _ => none
  | _, [] => none
  | fuel + 1, c :: rest =>
    if c = '"' then some (⟨acc.reverse⟩, rest)
    else if c = '\\' then
      match rest with
      | [] => none
      | e :: rest2 =>
        let dec : Option Char :=
          if e = '"' then some '"'
          else if e = '\\' then some '\\'
          else if e = '/' then some '/'
          else if e = 'n' then some '\n'
          else if e = 't' then some '\t'
          else if e = 'r' then some '\x0d'
          else none
        match dec with
        | some d => parseStringBody fuel (d :: acc) rest2
        | none => none
    else parseStringBody fuel (c :: acc) rest

/-- Parse a run of decimal digits into a natural number. -/
def parseDigits (acc : Nat) (s : List Char) (seen : Bool) :
    Option (Nat × List Char) :=
  match s with
  | [] => if seen then some (acc, []) else none
  | c :: rest =>
    if c.isDigit then parseDigits (acc * 10 + (c.toNat - '0'.toNat)) rest true
    else if seen then some (acc, s) else none

mutual

/-- Parse one JSON value, returning it and the remaining input. -/
def parseValue (fuel : Nat) (s : List Char) : Option (PyJson × List Char) :=
  match fuel with
  | 0 => none
  | fuel + 1 =>
    match s.dropWhile jsonWs with
    | [] => none
    | c :: rest =>
      if c = '[' then
        match (rest.dropWhile jsonWs) with
        | ']' :: rest2 => some (.arr [], rest2)
        | _ =>
          match parseArrayItems fuel rest with
          | some (xs, rest2) => some (.arr xs, rest2)
          | none => none
      else if c = '\x7b' then
        match (rest.dropWhile jsonWs) with
        | '\x7d' :: rest2 => some (.obj [], rest2)
        | _ =>
          match parseObjItems fuel rest with
          | some (kvs, rest2) => some (.obj kvs, rest2)
          | none => none
      else if c = '"' then
        match parseStringBody (rest.length + 1) [] rest with
        | some (str, rest2) => some (.str str, rest2)
        | none => none
      else if c = '-' then
        match parseDigits 0 rest false with
        | some (n, rest2) => some (.num (-(n : Int)), rest2)
        | none => none
      else if c.isDigit then
        match parseDigits 0 (c :: rest) false with
        | some (n, rest2) => some (.num (n : Int), rest2)
        | none => none
      else if ('t' :: 'r' :: 'u' :: 'e' :: []).isPrefixOf (c :: rest) then
        some (.bool true, (c :: rest).drop 4)
      else if ('f' :: 'a' :: 'l' :: 's' :: 'e' :: []).isPrefixOf (c :: rest) then
        some (.bool false, (c :: rest).drop 5)
      else if ('n' :: 'u' :: 'l' :: 'l' :: []).isPrefixOf (c :: rest) then
        some (.null, (c :: rest).drop 4)
      else none

/-- Parse the comma-separated items of a non-empty JSON array
(input starts after the `[`); consumes the closing `]`. -/
def parseArrayItems (fuel : Nat) (s : List Char) :
    Option (List PyJson × List Char) :=
  match fuel with
  | 0 => none
  | fuel + 1 =>
    match parseValue fuel s with
    | none => none
    | some (v, rest) =>
      match rest.dropWhile jsonWs with
      | ']' :: rest2 => some ([v], rest2)
      | ',' :: rest2 =>
        match parseArrayItems fuel rest2 with
        | some (xs, rest3) => some (v :: xs, rest3)
        | none => none
      | _ => none

/-- Parse the comma-separated members of a non-empty JSON object
(input starts after the opening brace); consumes the closing brace. -/
def parseObjItems (fuel : Nat) (s : List Char) :
    Option (List (String × PyJson) × List Char) :=
  match fuel with
  | 0 => none
  | fuel + 1 =>
    match s.dropWhile jsonWs with
    | '"' :: rest =>
      match parseStringBody (rest.length + 1) [] rest with
      | none => none
      | some (key, rest2) =>
        match rest2.dropWhile jsonWs with
        | ':' :: rest3 =>
          match parseValue fuel rest3 with
          | none => none
          | some (v, rest4) =>
            match rest4.dropWhile jsonWs with
            | '\x7d' :: rest5 => some ([(key, v)], rest5)
            | ',' :: rest5 =>
              match parseObjItems fuel rest5 with
              | some (kvs, rest6) => some ((key, v) :: kvs, rest6)
              | none => none
            | _ => none
        | _ => none
    | _ => none

end

/-- Model of Python `json.loads`: parse the whole string as one JSON value;
`none` models `json.JSONDecodeError` (also on empty input or trailing
garbage, as in CPython). -/
def jsonLoads (s : String) : Option PyJson :=
  match parseValue (2 * s.data.length + 4) s.data with
  | some (v, rest) => if rest.dropWhile jsonWs = [] then some v else none
  | none => none

/-! ### `call_gemini_api` — the HTTP call with retry/backoff

The network is abstracted as an oracle `resp : Nat → AttemptOutcome`
giving, for each attempt index, the outcome of
`requests.post(...)` + `response.raise_for_status()`:
`ok env` (2xx with JSON body `env`), `httpErr status`
(`raise_for_status` raised `HTTPError` for a 4xx/5xx `status`), or
`connErr` (`RequestException`: connectivity failure, no response).
`time.sleep` is recorded in the `sleeps` list. -/

/-- Outcome of a single `requests.post` + `raise_for_status`. -/
inductive AttemptOutcome where
  | ok (env : PyJson)
  | httpErr (status : Nat)
  | connErr
deriving Repr

/-- What a call to `call_gemini_api` produced: the returned JSON or the
raised exception, the backoff delays slept (in order), and how many
attempts were made. -/
structure CallResult where
  result : Except PyErr PyJson
  sleeps : List Nat
  attemptsMade : Nat
deriving Repr

/-- The `for attempt in range(max_retries)` loop of `call_gemini_api`,
lines 75–98. `pending` is the list of remaining attempt indices
(initially `[0, 1, 2]`); `sleeps`/`made` accumulate; `lastErr` is the
Python local `last_error` (unbound = `none`, so the trailing
`raise last_error` on an unbound local would be a `NameError`). -/
def callLoop (resp : Nat → AttemptOutcome) :
    List Nat → List Nat → Nat → Option PyErr → CallResult
  | [], sleeps, made, lastErr =>
    -- line 98: `raise last_error`
    { result := .error (lastErr.getD .nameError), sleeps := sleeps,
      attemptsMade := made }
  | attempt :: rest, sleeps, made, _ =>
    match resp attempt with
    | .ok env =>
      -- line 79: `return response.json()`
      { result := .ok env, sleeps := sleeps, attemptsMade := made + 1 }
    | .httpErr status =>
      if status = 403 then
        -- lines 81–83: 403 ⇒ raise PermissionError, no retry, no sleep
        { result := .error .permissionError, sleeps := sleeps,
          attemptsMade := made + 1 }
      else
        -- lines 86–90: remember error, sleep 2^attempt unless last attempt
        let sleeps' := if rest = [] then sleeps else sleeps ++ [2 ^ attempt]
        callLoop resp rest sleeps' (made + 1) (some (.httpError status))
    | .connErr =>
      -- lines 91–96: RequestException branch, same backoff
      let sleeps' := if rest = [] then sleeps else sleeps ++ [2 ^ attempt]
      callLoop resp rest sleeps' (made + 1) (some .requestError)

/-- Model of `call_gemini_api` (lines 49–98). The body construction
(lines 54–71) has no effect on the claims and is elided; the empty-key
check (lines 51–52) raises `ValueError` before any attempt. In Python
`not api_key` is true exactly for the empty string. -/
def callGeminiApi (apiKey : String) (resp : Nat → AttemptOutcome) :
    CallResult :=
  if apiKey = "" then
    { result := .error .valueError, sleeps := [], attemptsMade := 0 }
  else
    callLoop resp [0, 1, 2] [] 0 none

/-! ### `parse_and_store_results` — envelope access, cleanup, storage -/

/-- Python `d.get(key, default)`: on a dict, the first binding for `key`
or the default; on any non-dict value an `AttributeError` (no `.get`). -/
def pyGetD (j : PyJson) (key : String) (dflt : PyJson) : Except PyErr PyJson :=
  match j with
  | .obj kvs =>
    match kvs.lookup key with
    | some v => .ok v
    | none => .ok dflt
  | _ => .error .attributeError

/-- Python `xs[0]`: on a non-empty list its head, on an empty list an
`IndexError`; on a non-list value an `AttributeError` stand-in (the
concrete Python error differs by type, but it is likewise a non-
`PermissionError` exception, which is all `process_images` observes). -/
def pyIndex0 (j : PyJson) : Except PyErr PyJson :=
  match j with
  | .arr [] => .error .indexError
  | .arr (x :: _) => .ok x
  | _ => .error .attributeError

/-- Lines 102–103: extract the first candidate's first text part, with
`{}`-style defaults at every `.get`. A non-string `text` value would make
the subsequent `.strip()` fail, modelled as `AttributeError`. -/
def getResponseText (result : PyJson) : Except PyErr String := do
  let candidates ← pyGetD result "candidates" (.arr [.obj []])
  let candidate ← pyIndex0 candidates
  let content ← pyGetD candidate "content" (.obj [])
  let parts ← pyGetD content "parts" (.arr [.obj []])
  let part0 ← pyIndex0 parts
  let text ← pyGetD part0 "text" (.str "")
  match text with
  | .str s => .ok s
  | _ => .error .attributeError

/-- The observable effect of lines 106–115 on the session state and the
user: either `extracted_data` was extended with the parsed list, or a
"not a JSON list" warning was shown, or a "Failed to parse JSON" error
message was shown (`cleaned` is the cleaned string the message quotes). -/
inductive ParseOutcome where
  | extended (xs : List PyJson)
  | warnedNotList (cleaned : String)
  | erroredDecode (cleaned : String)
deriving Repr

/-- Line 106: `response_text.strip().replace('```json', '').replace('```', '').strip()`. -/
def cleanResponseText (responseText : String) : String :=
  pyStrip (pyReplace (pyReplace (pyStrip responseText) "```json" "") "```" "")

/-- Lines 106–115 of `parse_and_store_results`, applied to the already
extracted response text. -/
def parseText (responseText : String) : ParseOutcome :=
  let cleaned := cleanResponseText responseText
  match jsonLoads cleaned with
  | some (.arr xs) => .extended xs
  | some _ => .warnedNotList cleaned
  | none => .erroredDecode cleaned

/-- Model of `parse_and_store_results` (lines 100–115). -/
def parseAndStore (result : PyJson) : Except PyErr ParseOutcome :=
  (getResponseText result).map parseText

/-- The message `st.warning`/`st.error` shows for a `ParseOutcome`
(lines 113 and 115); `none` when records were stored without complaint. -/
def surfacedMessage : ParseOutcome → Option String
  | .extended _ => none
  | .warnedNotList cleaned =>
    some ("AI response was not a JSON list: " ++ cleaned)
  | .erroredDecode cleaned =>
    some ("Failed to parse JSON from AI response: " ++ cleaned.take 100 ++ "...")

/-! ### `process_images` — the per-image loop -/

/-- The externally supplied behaviour of one uploaded image: whether
`convert_to_base64_and_mime` succeeds (returns truthy base64 data), and
the network oracle for its `call_gemini_api` attempts. -/
structure ImageSpec where
  fileOk : Bool
  resp : Nat → AttemptOutcome

/-- The run state `process_images` maintains: the session's
`extracted_data` accumulator, the local `error_count`, whether the run
returned early out of the `PermissionError` handler (line 146), and how
many images the loop body entered. -/
structure RunState where
  extracted : List PyJson
  errorCount : Nat
  aborted : Bool
  processed : Nat
deriving Repr

/-- What one trip through the loop body (lines 129–149) does. -/
inductive StepResult where
  | abort                                   -- `except PermissionError: ... return`
  | contrib (xs : List PyJson) (errs : Nat) -- extend by `xs`, `error_count += errs`
deriving Repr

/-- One trip through the loop body of `process_images` for one image:
file-read failure (lines 133–136), the API call and parse/store inside
the `try` (lines 139–142), the `PermissionError` handler (143–146) and
the generic handler (147–149). -/
def stepImage (apiKey : String) (img : ImageSpec) : StepResult :=
  if img.fileOk = false then
    .contrib [] 1
  else
    match (callGeminiApi apiKey img.resp).result with
    | .error e =>
      if e = .permissionError then .abort else .contrib [] 1
    | .ok env =>
      match parseAndStore env with
      | .error e =>
        if e = .permissionError then .abort else .contrib [] 1
      | .ok (.extended xs) => .contrib xs 0
      | .ok (.warnedNotList _) => .contrib [] 0
      | .ok (.erroredDecode _) => .contrib [] 0

/-- The `for` loop of `process_images` (lines 129–149), threading the
run state. `.abort` models the `return` on line 146: the remaining
images are not visited and the state is left as it stands. -/
def runImages (apiKey : String) : List ImageSpec → RunState → RunState
  | [], st => st
  | img :: rest, st =>
    match stepImage apiKey img with
    | .abort =>
      { st with aborted := true, processed := st.processed + 1 }
    | .contrib xs errs =>
      runImages apiKey rest
        { st with extracted := st.extracted ++ xs,
                  errorCount := st.errorCount + errs,
                  processed := st.processed + 1 }

/-- Model of `process_images` (lines 117–162) on a non-empty upload list.
`priorExtracted` is whatever `st.session_state.extracted_data` held
before the run; line 119 resets it to `[]` before the loop. -/
def processImages (apiKey : String) (priorExtracted : List PyJson)
    (files : List ImageSpec) : RunState :=
  runImages apiKey files
    { extracted := [], errorCount := 0, aborted := false, processed := 0 }

/-- Line 152: `total_records = len(st.session_state.extracted_data)`. -/
def totalRecords (st : RunState) : Nat := st.extracted.length

/-- Line 153: `success_count = len(files) - error_count`. -/
def successCount (files : List ImageSpec) (st : RunState) : Nat :=
  files.length - st.errorCount

/-- The failed-image count the final status message reports
(line 157 shows `error_count`). -/
def failedCount (st : RunState) : Nat := st.errorCount

/-! ### The CSV export (lines 209–213)

`pd.DataFrame(extracted_data)` over a list of dicts takes as columns the
keys in order of first appearance across the rows; `to_csv(index=False)`
emits a comma-separated header and one line per row, quoting minimally,
with `\n` line ends (the platform line separator on the Linux host), and
renders a missing value as an empty field. The model covers rows that
are JSON objects whose values are strings or integers — the shape of the
records this app stores — rendering integers without pandas' float
promotion of columns that contain missing values (no claim exercises
that corner). -/

/-- The key list of a row (a JSON object); non-object rows contribute no
keys in this model. -/
def rowKeys : PyJson → List String
  | .obj kvs => kvs.map Prod.fst
  | _ => []

/-- Fold keys into the column list, keeping first-appearance order and
dropping duplicates — the `pd.DataFrame` column inference. -/
def addKeys (cols : List String) : List String → List String
  | [] => cols
  | k :: ks => if k ∈ cols then addKeys cols ks else addKeys (cols ++ [k]) ks

/-- The DataFrame columns for a list of rows. -/
def dfColumns (rows : List PyJson) : List String :=
  rows.foldl (fun cols row => addKeys cols (rowKeys row)) []

/-- Minimal CSV quoting (`csv.QUOTE_MINIMAL`): quote a field iff it
contains a separator, a quote or a line break, doubling inner quotes. -/
def csvCell (s : String) : String :=
  if s.data.any (fun c => c = ',' || c = '"' || c = '\n' || c = '\x0d') then
    "\"" ++ pyReplace s "\"" "\"\"" ++ "\""
  else s

/-- Render one DataFrame cell. -/
def renderCell : Option PyJson → String
  | some (.str s) => csvCell s
  | some (.num n) => toString n
  | some (.bool b) => if b then "True" else "False"
  | some .null => ""
  | some (.arr _) => ""  -- nested containers never occur in stored records
  | some (.obj _) => ""
  | none => ""

/-- Look a key up in a row. -/
def rowLookup (row : PyJson) (key : String) : Option PyJson :=
  match row with
  | .obj kvs => kvs.lookup key
  | _ => none

/-- Comma-join a list of rendered cells. -/
def joinCells : List String → String
  | [] => ""
  | [c] => c
  | c :: cs => c ++ "," ++ joinCells cs

/-- Concatenate a list of lines. -/
def strConcat : List String → String
  | [] => ""
  | s :: rest => s ++ strConcat rest

/-- Model of `df.to_csv(index=False)` for the stored records
(line 213). -/
def csvData (rows : List PyJson) : String :=
  let cols := dfColumns rows
  let header := joinCells cols ++ "\n"
  let body := rows.map fun row =>
    joinCells (cols.map fun c => renderCell (rowLookup row c)) ++ "\n"
  header ++ strConcat body

/-! ### `.encode('utf-8')` (line 213) -/

/-- UTF-8 encoding of one code point. -/
def utf8EncodeChar (n : Nat) : List Nat :=
  if n < 0x80 then [n]
  else if n < 0x800 then [0xC0 + n / 64, 0x80 + n % 64]
  else if n < 0x10000 then
    [0xE0 + n / 4096, 0x80 + n / 64 % 64, 0x80 + n % 64]
  else
    [0xF0 + n / 262144, 0x80 + n / 4096 % 64, 0x80 + n / 64 % 64, 0x80 + n % 64]

/-- Model of Python `str.encode('utf-8')`: the byte sequence (no BOM;
`'utf-8-sig'` would prepend one, `'utf-8'` does not). -/
def utf8Encode (s : String) : List Nat :=
  (s.data.map fun c => utf8EncodeChar c.toNat).flatten

/-- A standard UTF-8 decoder (the consumer's view of the exported bytes),
returning the code-point sequence; `none` on a malformed sequence. -/
def utf8Decode (fuel : Nat) (bytes : List Nat) : Option (List Nat) :=
  match fuel, bytes with
  | _, [] => some []
  | 0, _ => none
  | fuel + 1, b :: rest =>
    if b < 0x80 then
      (utf8Decode fuel rest).map (b :: ·)
    else if 0xC0 ≤ b ∧ b < 0xE0 then
      match rest with
      | b1 :: rest1 =>
        if 0x80 ≤ b1 ∧ b1 < 0xC0 then
          (utf8Decode fuel rest1).map (((b - 0xC0) * 64 + (b1 - 0x80)) :: ·)
        else none
      | _ => none
    else if 0xE0 ≤ b ∧ b < 0xF0 then
      match rest with
      | b1 :: b2 :: rest2 =>
        if (0x80 ≤ b1 ∧ b1 < 0xC0) ∧ (0x80 ≤ b2 ∧ b2 < 0xC0) then
          (utf8Decode fuel rest2).map
            (((b - 0xE0) * 4096 + (b1 - 0x80) * 64 + (b2 - 0x80)) :: ·)
        else none
      | _ => none
    else if 0xF0 ≤ b ∧ b < 0xF8 then
      match rest with
      | b1 :: b2 :: b3 :: rest3 =>
        if (0x80 ≤ b1 ∧ b1 < 0xC0) ∧ (0x80 ≤ b2 ∧ b2 < 0xC0) ∧
            (0x80 ≤ b3 ∧ b3 < 0xC0) then
          (utf8Decode fuel rest3).map
            (((b - 0xF0) * 262144 + (b1 - 0x80) * 4096 + (b2 - 0x80) * 64 +
              (b3 - 0x80)) :: ·)
        else none
      | _ => none
    else none

/-! ### Derived views used by the theorems -/

/-- An attempt outcome the retry loop retries: a 4xx/5xx HTTP status other
than 403, or a connectivity failure. -/
def isRetryable : AttemptOutcome → Bool
  | .ok _ => false
  | .httpErr status =>
    decide (400 ≤ status) && decide (status < 600) && decide (status ≠ 403)
  | .connErr => true

/-- The exception `call_gemini_api` remembers in `last_error` for a failed
attempt. -/
def errOfOutcome : AttemptOutcome → PyErr
  | .ok _ => .nameError
  | .httpErr status => .httpError status
  | .connErr => .requestError

/-- The records one image contributes to `extracted_data`. -/
def imageRecords (apiKey : String) (img : ImageSpec) : List PyJson :=
  match stepImage apiKey img with
  | .abort => []
  | .contrib xs _ => xs

/-- The `error_count` increment one image causes. -/
def imageErrs (apiKey : String) (img : ImageSpec) : Nat :=
  match stepImage apiKey img with
  | .abort => 0
  | .contrib _ errs => errs

/-- Whether one image makes `process_images` return early
(the `PermissionError` handler). -/
def imageAborts (apiKey : String) (img : ImageSpec) : Bool :=
  match stepImage apiKey img with
  | .abort => true
  | .contrib _ _ => false

/-! ### Concrete fixtures for witnesses and counterexamples -/

/-- A response envelope whose first candidate's first part carries `t`. -/
def envOf (t : String) : PyJson :=
  .obj [("candidates", .arr [.obj [("content",
    .obj [("parts", .arr [.obj [("text", .str t)]])])]])]

/-- The record `{"name": "Alice", "number": 42}`. -/
def objAlice : PyJson := .obj [("name", .str "Alice"), ("number", .num 42)]

/-- The record `{"name": "A", "number": 1}`. -/
def objA : PyJson := .obj [("name", .str "A"), ("number", .num 1)]

/-- The record `{"name": "José", "number": 42}` (non-ASCII name). -/
def objJose : PyJson := .obj [("name", .str "José"), ("number", .num 42)]

/-- An image whose AI response is the well-formed singleton array
`[{"name":"A","number":1}]`. -/
def goodImage : ImageSpec :=
  ⟨true, fun _ => .ok (envOf "[\x7b\"name\":\"A\",\"number\":1\x7d]")⟩

/-- An image whose AI response text is not JSON. -/
def malformedImage : ImageSpec := ⟨true, fun _ => .ok (envOf "not json")⟩

/-- An image whose API call always answers HTTP 403. -/
def forbiddenImage : ImageSpec := ⟨true, fun _ => .httpErr 403⟩

/-- An image whose API call would succeed with an empty array. -/
def emptyOkImage : ImageSpec := ⟨true, fun _ => .ok (envOf "[]")⟩

/-- An envelope whose first part object has no `"text"` key. -/
def noTextEnv : PyJson :=
  .obj [("candidates", .arr [.obj [("content",
    .obj [("parts", .arr [.obj []])])]])]

/-- An image whose API call succeeds with the text-less envelope. -/
def noTextImage : ImageSpec := ⟨true, fun _ => .ok noTextEnv⟩

/-- The image record constructor for complete `{name, number}` rows. -/
def mkRecord (p : String × Int) : PyJson :=
  .obj [("name", .str p.1), ("number", .num p.2)]

/-! ## Lemmas about the retry loop -/

/-- A retryable attempt that is not the last one: the loop remembers the
error, sleeps `2 ^ attempt`, and moves on. -/
lemma callLoop_cons_retryable (resp : Nat → AttemptOutcome) (a : Nat)
    (rest sleeps : List Nat) (made : Nat) (lastErr : Option PyErr)
    (h : isRetryable (resp a) = true) (hrest : rest ≠ []) :
    callLoop resp (a :: rest) sleeps made lastErr =
      callLoop resp rest (sleeps ++ [2 ^ a]) (made + 1)
        (some (errOfOutcome (resp a))) := by
  cases ha : resp a with
  | ok env => rw [ha] at h; simp [isRetryable] at h
  | httpErr status =>
    rw [ha] at h
    simp [isRetryable] at h
    simp [callLoop, ha, errOfOutcome, h.2, hrest]
  | connErr => simp [callLoop, ha, errOfOutcome, hrest]

/-- A retryable attempt that is the last one: no sleep, and the loop falls
through to `raise last_error` with this attempt's error. -/
lemma callLoop_last_retryable (resp : Nat → AttemptOutcome) (a : Nat)
    (sleeps : List Nat) (made : Nat) (lastErr : Option PyErr)
    (h : isRetryable (resp a) = true) :
    callLoop resp [a] sleeps made lastErr =
      { result := .error (errOfOutcome (resp a)), sleeps := sleeps,
        attemptsMade := made + 1 } := by
  cases ha : resp a with
  | ok env => rw [ha] at h; simp [isRetryable] at h
  | httpErr status =>
    rw [ha] at h
    simp [isRetryable] at h
    simp [callLoop, ha, errOfOutcome, h.2]
  | connErr => simp [callLoop, ha, errOfOutcome]

/-- A 403 attempt raises `PermissionError` at once: no sleep, no retry. -/
lemma callLoop_cons_403 (resp : Nat → AttemptOutcome) (a : Nat)
    (rest sleeps : List Nat) (made : Nat) (lastErr : Option PyErr)
    (ha : resp a = .httpErr 403) :
    callLoop resp (a :: rest) sleeps made lastErr =
      { result := .error .permissionError, sleeps := sleeps,
        attemptsMade := made + 1 } := by
  simp [callLoop, ha]

/-- With a non-empty key the call enters the attempt loop. -/
lemma callGeminiApi_ne_empty (apiKey : String) (resp : Nat → AttemptOutcome)
    (hkey : apiKey ≠ "") :
    callGeminiApi apiKey resp = callLoop resp [0, 1, 2] [] 0 none := by
  simp [callGeminiApi, hkey]

/-! ## The claims -/

/-- C1: when every one of the 3 attempts fails with a retryable outcome
(a 4xx/5xx status other than 403, or a connectivity failure),
`call_gemini_api` makes exactly 3 attempts, sleeps `2^0` then `2^1`
seconds between consecutive attempts (none after the final one), and
raises the last encountered error. -/
theorem claim1_retry_exhaustion (apiKey : String)
    (resp : Nat → AttemptOutcome) (hkey : apiKey ≠ "")
    (hretry : ∀ i < 3, isRetryable (resp i) = true) :
    (callGeminiApi apiKey resp).attemptsMade = 3 ∧
    (callGeminiApi apiKey resp).sleeps = [2 ^ 0, 2 ^ 1] ∧
    (callGeminiApi apiKey resp).result = .error (errOfOutcome (resp 2)) := by
  rw [callGeminiApi_ne_empty apiKey resp hkey,
    callLoop_cons_retryable resp 0 [1, 2] [] 0 none
      (hretry 0 (by norm_num)) (by simp),
    callLoop_cons_retryable resp 1 [2] ([] ++ [2 ^ 0]) 1 _
      (hretry 1 (by norm_num)) (by simp),
    callLoop_last_retryable resp 2 (([] ++ [2 ^ 0]) ++ [2 ^ 1]) 2 _
      (hretry 2 (by norm_num))]
  exact ⟨rfl, by simp, rfl⟩

/-- Witness for C1: three consecutive HTTP 500 responses. -/
theorem claim1_retry_exhaustion_witness :
    ("k" ≠ "" ∧
      ∀ i < 3, isRetryable ((fun _ => AttemptOutcome.httpErr 500) i) = true) ∧
    ((callGeminiApi "k" (fun _ => AttemptOutcome.httpErr 500)).attemptsMade = 3 ∧
     (callGeminiApi "k" (fun _ => AttemptOutcome.httpErr 500)).sleeps = [2 ^ 0, 2 ^ 1] ∧
     (callGeminiApi "k" (fun _ => AttemptOutcome.httpErr 500)).result =
       .error (errOfOutcome ((fun _ => AttemptOutcome.httpErr 500) 2))) :=
  ⟨⟨by decide, by decide⟩,
    claim1_retry_exhaustion "k" (fun _ => AttemptOutcome.httpErr 500)
      (by decide) (by decide)⟩

/-- C2: if attempt `k` (< 3) answers HTTP 403 after `k` retryable
attempts, `call_gemini_api` raises `PermissionError` on that very
attempt: `k + 1` attempts total, and only the `k` backoff sleeps that
preceded the 403 (none caused by it). -/
theorem claim2_403_no_retry (apiKey : String) (resp : Nat → AttemptOutcome)
    (k : Nat) (hkey : apiKey ≠ "") (hk : k < 3)
    (hpre : ∀ i < k, isRetryable (resp i) = true)
    (h403 : resp k = .httpErr 403) :
    (callGeminiApi apiKey resp).result = .error .permissionError ∧
    (callGeminiApi apiKey resp).attemptsMade = k + 1 ∧
    (callGeminiApi apiKey resp).sleeps = (List.range k).map (2 ^ ·) := by
  rw [callGeminiApi_ne_empty apiKey resp hkey]
  interval_cases k
  · rw [callLoop_cons_403 resp 0 [1, 2] [] 0 none h403]
    exact ⟨rfl, rfl, rfl⟩
  · rw [callLoop_cons_retryable resp 0 [1, 2] [] 0 none
      (hpre 0 (by norm_num)) (by simp),
      callLoop_cons_403 resp 1 [2] ([] ++ [2 ^ 0]) 1 _ h403]
    exact ⟨rfl, rfl, by decide⟩
  · rw [callLoop_cons_retryable resp 0 [1, 2] [] 0 none
      (hpre 0 (by norm_num)) (by simp),
      callLoop_cons_retryable resp 1 [2] ([] ++ [2 ^ 0]) 1 _
        (hpre 1 (by norm_num)) (by simp),
      callLoop_cons_403 resp 2 [] (([] ++ [2 ^ 0]) ++ [2 ^ 1]) 2 _ h403]
    exact ⟨rfl, rfl, by decide⟩

/-- Witness for C2: a 500 on attempt 0, then a 403 on attempt 1. -/
theorem claim2_403_no_retry_witness :
    ("k" ≠ "" ∧ 1 < 3 ∧
      (∀ i < 1, isRetryable
        ((fun i => if i = 0 then AttemptOutcome.httpErr 500
          else AttemptOutcome.httpErr 403) i) = true) ∧
      (fun i => if i = 0 then AttemptOutcome.httpErr 500
        else AttemptOutcome.httpErr 403) 1 = .httpErr 403) ∧
    ((callGeminiApi "k" (fun i => if i = 0 then AttemptOutcome.httpErr 500
        else AttemptOutcome.httpErr 403)).result = .error .permissionError ∧
     (callGeminiApi "k" (fun i => if i = 0 then AttemptOutcome.httpErr 500
        else AttemptOutcome.httpErr 403)).attemptsMade = 1 + 1 ∧
     (callGeminiApi "k" (fun i => if i = 0 then AttemptOutcome.httpErr 500
        else AttemptOutcome.httpErr 403)).sleeps = (List.range 1).map (2 ^ ·)) :=
  ⟨⟨by decide, by decide, by decide, rfl⟩,
    claim2_403_no_retry "k" _ 1 (by decide) (by decide) (by decide) rfl⟩

/-! ## Lemmas about the per-image loop -/

/-- With an empty API key every image takes the generic exception path:
no records, `error_count += 1`, no abort. -/
lemma stepImage_empty_key (img : ImageSpec) :
    stepImage "" img = .contrib [] 1 := by
  cases hf : img.fileOk <;> simp [stepImage, hf, callGeminiApi]

/-- A non-aborting image contributes its records and error increment. -/
lemma stepImage_eq_contrib (apiKey : String) (img : ImageSpec)
    (h : imageAborts apiKey img = false) :
    stepImage apiKey img =
      .contrib (imageRecords apiKey img) (imageErrs apiKey img) := by
  unfold imageAborts at h
  unfold imageRecords imageErrs
  cases hs : stepImage apiKey img <;> simp [hs] at h ⊢

/-- Running the loop over a list of non-aborting images: records are
concatenated in order, error increments summed, every image visited. -/
lemma runImages_no_abort (apiKey : String) (files : List ImageSpec)
    (st : RunState) (h : ∀ img ∈ files, imageAborts apiKey img = false) :
    runImages apiKey files st =
      { extracted := st.extracted ++ (files.map (imageRecords apiKey)).flatten,
        errorCount := st.errorCount + (files.map (imageErrs apiKey)).sum,
        aborted := st.aborted,
        processed := st.processed + files.length } := by
  induction files generalizing st with
  | nil => cases st; simp [runImages]
  | cons img rest ih =>
    have h1 := h img (List.mem_cons_self img rest)
    rw [runImages, stepImage_eq_contrib apiKey img h1]
    show runImages apiKey rest _ = _
    rw [ih _ (fun i hi => h i (List.mem_cons_of_mem _ hi))]
    cases st
    simp [RunState.mk.injEq]
    omega

/-- The loop over non-aborting images then the rest equals running the
rest from the state the first part produced. -/
lemma runImages_append_no_abort (apiKey : String) (pre rest : List ImageSpec)
    (st : RunState) (h : ∀ i ∈ pre, imageAborts apiKey i = false) :
    runImages apiKey (pre ++ rest) st =
      runImages apiKey rest (runImages apiKey pre st) := by
  induction pre generalizing st with
  | nil => rfl
  | cons i pre ih =>
    have h1 := h i (List.mem_cons_self i pre)
    rw [List.cons_append, runImages, stepImage_eq_contrib apiKey i h1]
    show runImages apiKey (pre ++ rest) _ = _
    rw [ih _ (fun j hj => h j (List.mem_cons_of_mem _ hj))]
    congr 1
    rw [runImages, stepImage_eq_contrib apiKey i h1]

/-- An aborting image makes the loop return at once, leaving the
accumulated state otherwise untouched. -/
lemma runImages_abort_head (apiKey : String) (img : ImageSpec)
    (rest : List ImageSpec) (st : RunState)
    (h : imageAborts apiKey img = true) :
    runImages apiKey (img :: rest) st =
      { st with aborted := true, processed := st.processed + 1 } := by
  have hs : stepImage apiKey img = .abort := by
    unfold imageAborts at h
    cases hs : stepImage apiKey img <;> simp [hs] at h ⊢
  rw [runImages, hs]

/-- C3 counterexample: with an empty API key the call raises `ValueError`,
which is not the fatal class (`PermissionError`) and does not abort the
queue — a run over two images with an empty key visits both images and
counts both as failed instead of stopping after the first. -/
theorem claim3_counterexample :
    (callGeminiApi "" (fun _ => AttemptOutcome.ok .null)).result =
      .error .valueError ∧
    PyErr.valueError ≠ PyErr.permissionError ∧
    (processImages "" [] [goodImage, goodImage]).aborted = false ∧
    (processImages "" [] [goodImage, goodImage]).processed = 2 ∧
    failedCount (processImages "" [] [goodImage, goodImage]) = 2 :=
  ⟨rfl, by decide, rfl, rfl, rfl⟩

/-- C3 amended: with an empty API key `call_gemini_api` fails fast with a
`ValueError` before any network attempt (0 attempts, no sleeps); in
`process_images` this error is handled by the generic per-image handler,
so the run is not aborted: every image is still visited and each one
increments the failed count. -/
theorem claim3_empty_key_fails_fast (resp : Nat → AttemptOutcome)
    (prior : List PyJson) (files : List ImageSpec) :
    (callGeminiApi "" resp).result = .error .valueError ∧
    (callGeminiApi "" resp).attemptsMade = 0 ∧
    (callGeminiApi "" resp).sleeps = [] ∧
    (processImages "" prior files).aborted = false ∧
    (processImages "" prior files).errorCount = files.length ∧
    (processImages "" prior files).processed = files.length ∧
    (processImages "" prior files).extracted = [] := by
  have hrw := runImages_no_abort "" files
    { extracted := [], errorCount := 0, aborted := false, processed := 0 }
    (fun img _ => by simp [imageAborts, stepImage_empty_key])
  have herr : ∀ i ∈ files, imageErrs "" i = 1 := fun i _ => by
    simp [imageErrs, stepImage_empty_key]
  have hrec : ∀ i ∈ files, imageRecords "" i = [] := fun i _ => by
    simp [imageRecords, stepImage_empty_key]
  have hsum : ∀ l : List ImageSpec, (∀ i ∈ l, imageErrs "" i = 1) →
      (l.map (imageErrs "")).sum = l.length := by
    intro l
    induction l with
    | nil => simp
    | cons a t iht =>
      intro hl
      simp [hl a (List.mem_cons_self a t),
        iht (fun i hi => hl i (List.mem_cons_of_mem _ hi))]
      omega
  have hflat : ∀ l : List ImageSpec, (∀ i ∈ l, imageRecords "" i = []) →
      (l.map (imageRecords "")).flatten = [] := by
    intro l
    induction l with
    | nil => simp
    | cons a t iht =>
      intro hl
      simp [hl a (List.mem_cons_self a t),
        iht (fun i hi => hl i (List.mem_cons_of_mem _ hi))]
  refine ⟨rfl, rfl, rfl, ?_, ?_, ?_, ?_⟩
  · rw [processImages, hrw]
  · rw [processImages, hrw]
    simpa using hsum files herr
  · rw [processImages, hrw]
    simp
  · rw [processImages, hrw]
    simpa using hflat files hrec

/-- C9: when a run hits a fatal `PermissionError` (HTTP 403) on image
`k = pre.length` after non-aborting images `pre`, the records aggregated
from `pre` remain in `extracted_data` (the early return does not discard
them) and no image after `k` is processed. -/
theorem claim9_abort_preserves_prior (apiKey : String) (prior : List PyJson)
    (pre post : List ImageSpec) (img : ImageSpec)
    (hpre : ∀ i ∈ pre, imageAborts apiKey i = false)
    (habort : imageAborts apiKey img = true) :
    (processImages apiKey prior (pre ++ img :: post)).extracted =
      (pre.map (imageRecords apiKey)).flatten ∧
    (processImages apiKey prior (pre ++ img :: post)).aborted = true ∧
    (processImages apiKey prior (pre ++ img :: post)).processed =
      pre.length + 1 := by
  rw [processImages, runImages_append_no_abort apiKey pre (img :: post) _ hpre,
    runImages_no_abort apiKey pre _ hpre, runImages_abort_head _ _ _ _ habort]
  exact ⟨by simp, rfl, by simp⟩

/-- Witness for C9: one good image, then a 403 image, then another good
image that is never reached. -/
theorem claim9_abort_preserves_prior_witness :
    ((∀ i ∈ [goodImage], imageAborts "k" i = false) ∧
      imageAborts "k" forbiddenImage = true) ∧
    ((processImages "k" [objAlice]
        ([goodImage] ++ forbiddenImage :: [emptyOkImage])).extracted =
      ([goodImage].map (imageRecords "k")).flatten ∧
     (processImages "k" [objAlice]
        ([goodImage] ++ forbiddenImage :: [emptyOkImage])).aborted = true ∧
     (processImages "k" [objAlice]
        ([goodImage] ++ forbiddenImage :: [emptyOkImage])).processed =
       [goodImage].length + 1) :=
  ⟨⟨fun i hi => by
      rw [List.mem_singleton] at hi
      rw [hi]
      rfl,
    rfl⟩,
    claim9_abort_preserves_prior "k" [objAlice] [goodImage] [emptyOkImage]
      forbiddenImage
      (fun i hi => by
        rw [List.mem_singleton] at hi
        rw [hi]
        rfl)
      rfl⟩

/-- C10: the accumulator is reset at the start of every run (the state
left by a previous run is irrelevant), and in a run with no fatal abort
the final `extracted_data` is exactly the concatenation of the per-image
record lists in image order — no sorting, no deduplication, no merging. -/
theorem claim10_reset_and_concat (apiKey : String) (prior : List PyJson)
    (files : List ImageSpec)
    (h : ∀ i ∈ files, imageAborts apiKey i = false) :
    processImages apiKey prior files = processImages apiKey [] files ∧
    (processImages apiKey prior files).extracted =
      (files.map (imageRecords apiKey)).flatten := by
  refine ⟨rfl, ?_⟩
  rw [processImages, runImages_no_abort apiKey files _ h]
  simp

/-- Witness for C10: a stale accumulator and two images whose records
(one of them a duplicate of a record of the first image) are concatenated
in order. -/
theorem claim10_reset_and_concat_witness :
    (∀ i ∈ [goodImage, goodImage], imageAborts "k" i = false) ∧
    (processImages "k" [objAlice] [goodImage, goodImage] =
      processImages "k" [] [goodImage, goodImage] ∧
     (processImages "k" [objAlice] [goodImage, goodImage]).extracted =
       ([goodImage, goodImage].map (imageRecords "k")).flatten) :=
  ⟨fun i hi => by
      rw [List.mem_cons, List.mem_singleton] at hi
      rcases hi with hi | hi <;> rw [hi] <;> rfl,
    claim10_reset_and_concat "k" [objAlice] [goodImage, goodImage]
      (fun i hi => by
        rw [List.mem_cons, List.mem_singleton] at hi
        rcases hi with hi | hi <;> rw [hi] <;> rfl)⟩

/-- C4: for the response text wrapping `[{"name":"Alice","number":42}]`
in ```` ```json ... ``` ```` fences, the extractor strips the literal
fence strings, trims whitespace, parses the remainder as JSON, and
stores exactly the one record with name `"Alice"` and number `42`. -/
theorem claim4_fence_stripping :
    cleanResponseText "```json\n[\x7b\"name\":\"Alice\",\"number\":42\x7d]\n```" =
      "[\x7b\"name\":\"Alice\",\"number\":42\x7d]" ∧
    parseText "```json\n[\x7b\"name\":\"Alice\",\"number\":42\x7d]\n```" =
      .extended [objAlice] :=
  ⟨rfl, rfl⟩

/-- C5 counterexample: an image whose AI response text is unparsable JSON
contributes zero records and processing continues — but, contrary to the
claim, it is NOT counted among the failed images: the final summary of a
run over [malformed, good] reports 0 failed and 2 successfully processed
images. -/
theorem claim5_counterexample :
    (processImages "k" [] [malformedImage, goodImage]).extracted = [objA] ∧
    failedCount (processImages "k" [] [malformedImage, goodImage]) = 0 ∧
    ¬ failedCount (processImages "k" [] [malformedImage, goodImage]) = 1 ∧
    successCount [malformedImage, goodImage]
      (processImages "k" [] [malformedImage, goodImage]) = 2 :=
  ⟨rfl, rfl, by decide, rfl⟩

/-- C5 amended: an image whose AI response is unparsable JSON or a
non-array JSON value contributes zero records and processing continues
with the next image unchanged except for the progress counter — in
particular `error_count` is NOT incremented, so the image is counted
among the successfully processed images in the final summary, not among
the failed ones. -/
theorem claim5_malformed_not_failed (apiKey : String) (img : ImageSpec)
    (env : PyJson) (rest : List ImageSpec) (st : RunState)
    (hfile : img.fileOk = true)
    (hcall : (callGeminiApi apiKey img.resp).result = .ok env)
    (hbad : (∃ c, parseAndStore env = .ok (.erroredDecode c)) ∨
            (∃ c, parseAndStore env = .ok (.warnedNotList c))) :
    stepImage apiKey img = .contrib [] 0 ∧
    runImages apiKey (img :: rest) st =
      runImages apiKey rest { st with processed := st.processed + 1 } := by
  have hstep : stepImage apiKey img = .contrib [] 0 := by
    rcases hbad with ⟨c, hc⟩ | ⟨c, hc⟩ <;> simp [stepImage, hfile, hcall, hc]
  refine ⟨hstep, ?_⟩
  rw [runImages, hstep]
  show runImages apiKey rest _ = _
  congr 1
  cases st
  simp

/-- Witness for C5 amended: the malformed image followed by a good one. -/
theorem claim5_malformed_not_failed_witness :
    (malformedImage.fileOk = true ∧
     (callGeminiApi "k" malformedImage.resp).result = .ok (envOf "not json") ∧
     ((∃ c, parseAndStore (envOf "not json") = .ok (.erroredDecode c)) ∨
      (∃ c, parseAndStore (envOf "not json") = .ok (.warnedNotList c)))) ∧
    (stepImage "k" malformedImage = .contrib [] 0 ∧
     runImages "k" (malformedImage :: [goodImage])
        { extracted := [], errorCount := 0, aborted := false, processed := 0 } =
       runImages "k" [goodImage]
        { extracted := [], errorCount := 0, aborted := false,
          processed := 0 + 1 }) :=
  ⟨⟨rfl, rfl, Or.inl ⟨"not json", rfl⟩⟩,
    claim5_malformed_not_failed "k" malformedImage (envOf "not json")
      [goodImage]
      { extracted := [], errorCount := 0, aborted := false, processed := 0 }
      rfl rfl (Or.inl ⟨"not json", rfl⟩)⟩

set_option maxRecDepth 4096 in
/-- C6 counterexample: for the envelope whose first part has no `"text"`
key, the adapter does yield the empty string and zero records are
appended — but, contrary to the claim, the empty string is NOT treated
silently as "no records": `json.loads('')` fails and a
"Failed to parse JSON" error message IS surfaced to the user. -/
theorem claim6_counterexample :
    getResponseText noTextEnv = .ok "" ∧
    parseAndStore noTextEnv = .ok (.erroredDecode "") ∧
    surfacedMessage (.erroredDecode "") =
      some "Failed to parse JSON from AI response: ..." ∧
    ¬ surfacedMessage (.erroredDecode "") = none :=
  ⟨rfl, rfl, by decide, by decide⟩

/-- C6 amended: whenever the envelope walk yields the empty string (the
defaulted `.get` chain for a missing first text part), downstream the
image contributes zero records and is not counted as failed, but a
`json.loads` error message is surfaced to the user (rather than the
empty string being treated as a silent "no records"). -/
theorem claim6_missing_text_surfaces_error (env : PyJson) (apiKey : String)
    (img : ImageSpec)
    (henv : getResponseText env = .ok "")
    (hfile : img.fileOk = true)
    (hcall : (callGeminiApi apiKey img.resp).result = .ok env) :
    parseAndStore env = .ok (.erroredDecode "") ∧
    stepImage apiKey img = .contrib [] 0 ∧
    surfacedMessage (.erroredDecode "") ≠ none := by
  have hp : parseAndStore env = .ok (.erroredDecode "") := by
    unfold parseAndStore
    rw [henv]
    rfl
  refine ⟨hp, ?_, by simp [surfacedMessage]⟩
  simp [stepImage, hfile, hcall, hp]

/-- Witness for C6 amended: the text-less envelope. -/
theorem claim6_missing_text_surfaces_error_witness :
    (getResponseText noTextEnv = .ok "" ∧
     noTextImage.fileOk = true ∧
     (callGeminiApi "k" noTextImage.resp).result = .ok noTextEnv) ∧
    (parseAndStore noTextEnv = .ok (.erroredDecode "") ∧
     stepImage "k" noTextImage = .contrib [] 0 ∧
     surfacedMessage (.erroredDecode "") ≠ none) :=
  ⟨⟨rfl, rfl, rfl⟩,
    claim6_missing_text_surfaces_error noTextEnv "k" noTextImage rfl rfl rfl⟩

/-! ## Lemmas about the CSV export -/

/-- Folding further complete records into the column list adds nothing. -/
lemma dfColumns_loop_mkRecord (l : List (String × Int)) :
    List.foldl (fun cols row => addKeys cols (rowKeys row))
      ["name", "number"] (l.map mkRecord) = ["name", "number"] := by
  induction l with
  | nil => rfl
  | cons p t ih =>
    have h : addKeys ["name", "number"] (rowKeys (mkRecord p)) =
        ["name", "number"] := rfl
    rw [List.map_cons, List.foldl_cons, h]
    exact ih

/-- The inferred columns for a non-empty list of complete records are
`name` then `number` — the JSON keys, in first-appearance order. -/
lemma dfColumns_mkRecords (p : String × Int) (l : List (String × Int)) :
    dfColumns (mkRecord p :: l.map mkRecord) = ["name", "number"] := by
  unfold dfColumns
  rw [List.foldl_cons]
  have h : addKeys [] (rowKeys (mkRecord p)) = ["name", "number"] := rfl
  rw [h]
  exact dfColumns_loop_mkRecord l

/-- One CSV data row of a complete record. -/
lemma csvRow_mkRecord (p : String × Int) :
    joinCells (["name", "number"].map fun c =>
      renderCell (rowLookup (mkRecord p) c)) =
      csvCell p.1 ++ "," ++ toString p.2 := rfl

/-- The CSV body lines of a list of complete records, in list order. -/
lemma csvBody_mkRecords (l : List (String × Int)) :
    strConcat ((l.map mkRecord).map fun row =>
        joinCells (["name", "number"].map fun c =>
          renderCell (rowLookup row c)) ++ "\n") =
      strConcat (l.map fun p =>
        csvCell p.1 ++ "," ++ toString p.2 ++ "\n") := by
  induction l with
  | nil => rfl
  | cons p t ih =>
    simp only [List.map_cons, List.map_nil, strConcat] at ih ⊢
    rw [ih]
    have h := csvRow_mkRecord p
    simp only [List.map_cons, List.map_nil] at h
    rw [h]

/-- C7 counterexample: the CSV export of the record
`{"name": "Alice", "number": 42}` has header `name,number` — the
lowercase JSON keys — not `Name,Number` as the claim states. -/
theorem claim7_counterexample :
    dfColumns [objAlice] = ["name", "number"] ∧
    ¬ dfColumns [objAlice] = ["Name", "Number"] ∧
    csvData [objAlice] = "name,number\nAlice,42\n" :=
  ⟨rfl, by decide, rfl⟩

/-- C7 amended: for every non-empty list of complete records the CSV
export has a first row with exactly the two columns `name` and `number`
(lowercase, as the records' JSON keys), in that order, followed by one
data row per record in combined order. -/
theorem claim7_header_and_rows (l : List (String × Int)) (h : l ≠ []) :
    csvData (l.map mkRecord) =
      "name,number\n" ++ strConcat (l.map fun p =>
        csvCell p.1 ++ "," ++ toString p.2 ++ "\n") := by
  have hcols : dfColumns (l.map mkRecord) = ["name", "number"] := by
    match l, h with
    | p :: t, _ =>
      rw [List.map_cons]
      exact dfColumns_mkRecords p t
  simp only [csvData]
  rw [hcols, csvBody_mkRecords l]
  congr 1

/-- Witness for C7 amended: the records Alice→42 and Bob→17. -/
theorem claim7_header_and_rows_witness :
    [("Alice", (42 : Int)), ("Bob", 17)] ≠ [] ∧
    csvData ([("Alice", (42 : Int)), ("Bob", 17)].map mkRecord) =
      "name,number\n" ++
        strConcat ([("Alice", (42 : Int)), ("Bob", 17)].map fun p =>
          csvCell p.1 ++ "," ++ toString p.2 ++ "\n") :=
  ⟨by decide, claim7_header_and_rows [("Alice", (42 : Int)), ("Bob", 17)]
    (by decide)⟩

/-- C8 counterexample: the exported bytes start with `0x6E` (`'n'` of
`name`), not with the UTF-8 byte-order marker `EF BB BF` — the BOM is
NOT prepended, since the code encodes with `'utf-8'`, not
`'utf-8-sig'`. -/
theorem claim8_counterexample :
    ¬ (utf8Encode (csvData [objJose])).take 3 = [0xEF, 0xBB, 0xBF] ∧
    (utf8Encode (csvData [objJose])).head? = some 0x6E :=
  ⟨by decide, by decide⟩

/-- C8 amended: the exported CSV bytes are plain UTF-8 without a
byte-order marker; a non-ASCII name (`José`) round-trips: decoding the
exported bytes yields back exactly the CSV text's code points. -/
theorem claim8_utf8_no_bom :
    utf8Decode (utf8Encode (csvData [objJose])).length
        (utf8Encode (csvData [objJose])) =
      some ((csvData [objJose]).data.map Char.toNat) ∧
    ¬ (utf8Encode (csvData [objJose])).take 3 = [0xEF, 0xBB, 0xBF] ∧
    'é' ∈ (csvData [objJose]).data :=
  ⟨by decide, by decide, by decide⟩
